import Mathlib

/-!
Shallow embedding of `Server/main.go` (Go websocket control server).

The Go program keeps a global map `clients : map[string]*ClientConnection`
guarded by `clientsMux`.  We model the registry as an association list,
sockets as abstract handles whose read results and write outcomes are
supplied explicitly, and each HTTP handler as a pure function from the
parsed request, the registry and the socket-write outcome to the HTTP
response, the new registry and the list of messages written to the agent.
-/

/-- JSON values, enough for the wire messages and HTTP bodies of `main.go`. -/
inductive JVal where
  | str : String → JVal
  | num : Nat → JVal
  | bool : Bool → JVal
  | obj : List (String × JVal) → JVal
  | arr : List JVal → JVal
deriving Repr

/-- Mirrors Go `ClientConnection` (main.go:16).  The `*websocket.Conn` and the
`sync.Mutex` field carry no data; socket reads/writes are passed explicitly to
the functions that use them. -/
structure ClientConnection where
  id : String
  hostname : String
  os : String
  ip : String
  lastSeen : Nat
  isStreaming : Bool
deriving Repr, DecidableEq

/-- Mirrors Go `CommandRequest` (main.go:28). -/
structure CommandRequest where
  clientID : String
  command : String
  args : String
deriving Repr, DecidableEq

/-- Mirrors Go `StreamRequest` (main.go:43). -/
structure StreamRequest where
  clientID : String
  start : Bool
deriving Repr, DecidableEq

/-- The global `clients` map (main.go:49), as an association list. -/
def Registry := List (String × ClientConnection)

instance : DecidableEq Registry := fun a b => List.hasDecEq a b

instance : Repr Registry := inferInstanceAs (Repr (List (String × ClientConnection)))

/-- `clients[id]` lookup. -/
def lookupClient (id : String) : Registry → Option ClientConnection
  | [] => none
  | p :: rest => if p.1 = id then some p.2 else lookupClient id rest

/-- `delete(clients, id)` (main.go:128). -/
def removeClient (id : String) : Registry → Registry
  | [] => []
  | p :: rest => if p.1 = id then removeClient id rest else p :: removeClient id rest

/-- `clients[id] = c` (map update: overwrite when present, insert otherwise). -/
def insertClient (id : String) (c : ClientConnection) (reg : Registry) : Registry :=
  (id, c) :: removeClient id reg

/-- Update one client's entry in place (Go mutates through the shared
pointer, so the registry observes field updates). -/
def updateClient (id : String) (f : ClientConnection → ClientConnection) :
    Registry → Registry
  | [] => []
  | p :: rest =>
      (if p.1 = id then (p.1, f p.2) else p) :: updateClient id f rest

/-- An HTTP response produced by a gin handler: status code plus JSON body. -/
structure HttpResponse where
  status : Nat
  body : JVal
deriving Repr

/-- Result of one `conn.ReadMessage()` in the read loop: either bytes whose
`json.Unmarshal` outcome is `decoded` (`none` = malformed JSON), tagged with
the `time.Now()` instant at which the message is processed, or a read error. -/
inductive ReadEvent where
  | msg : Option (List (String × JVal)) → Nat → ReadEvent
  | fail : String → ReadEvent
deriving Repr

/-- Whether a trace of read results contains a read error. -/
def containsReadError : List ReadEvent → Bool
  | [] => false
  | ReadEvent.fail _ :: _ => true
  | ReadEvent.msg _ _ :: rest => containsReadError rest

/-- The `for` loop body of `handleClientMessages` (main.go:133-152): break on
read error; on `json.Unmarshal` failure continue; on success set
`client.LastSeen = time.Now()`.  The decoded map is otherwise only logged.
Returns the registry after the processed prefix and whether the loop broke
out on a read error. -/
def readLoop (id : String) (reg : Registry) : List ReadEvent → Registry × Bool
  | [] => (reg, false)
  | ReadEvent.fail _ :: _ => (reg, true)
  | ReadEvent.msg none _ :: rest => readLoop id reg rest
  | ReadEvent.msg (some _) t :: rest =>
      readLoop id (updateClient id (fun c => { c with lastSeen := t }) reg) rest

/-- `handleClientMessages` (main.go:124-153) over a finite trace of read
results.  The deferred cleanup (`conn.Close()`; `delete(clients, id)`) runs
exactly when the loop exits, i.e. when a read error occurs; if the trace ends
without one the goroutine is still blocked in `ReadMessage` and no cleanup has
happened.  Returns the final registry and whether the socket was closed. -/
def handleClientMessages (id : String) (events : List ReadEvent)
    (reg : Registry) : Registry × Bool :=
  let r := readLoop id reg events
  if r.2 then (removeClient id r.1, true) else (r.1, false)

/-- The initial JSON message `handleClientConnection` reads from the agent
(main.go:90-94). -/
structure ClientInfo where
  hostname : String
  os : String
  ip : String
deriving Repr, DecidableEq

/-- Outcome of `handleClientConnection`: the new registry, whether the agent
socket was closed by the handler, the id registered (if any), and the
messages the handler wrote to the agent socket. -/
structure ConnectOutcome where
  registry : Registry
  socketClosed : Bool
  registeredId : Option String
  written : List JVal
deriving Repr

/-- `handleClientConnection` (main.go:82-121).  `upgradeOk` is the outcome of
`upgrader.Upgrade`; `infoRead` the outcome of `conn.ReadJSON(&clientInfo)`
(`none` = error); `nowNano` the `time.Now().UnixNano()` used in the id;
`now` the `time.Now()` stored in `LastSeen`.  The handler writes nothing to
the agent socket: `written` collects every `WriteJSON` in its source body,
of which there are none. -/
def handleClientConnection (reg : Registry) (upgradeOk : Bool)
    (infoRead : Option ClientInfo) (nowNano : Nat) (now : Nat) : ConnectOutcome :=
  if upgradeOk then
    match infoRead with
    | none => ⟨reg, true, none, []⟩
    | some info =>
        let clientID := info.hostname ++ "-" ++ toString nowNano
        let client : ClientConnection :=
          { id := clientID, hostname := info.hostname, os := info.os,
            ip := info.ip, lastSeen := now, isStreaming := false }
        ⟨insertClient clientID client reg, false, some clientID, []⟩
  else ⟨reg, false, none, []⟩

/-- Outcome of an HTTP dispatch handler: response, new registry, and the
arguments of each `WriteJSON` call made on the target agent socket. -/
structure DispatchOutcome where
  response : HttpResponse
  registry : Registry
  written : List JVal
deriving Repr

/-- `sendCommand` (main.go:260-290).  `req` is the bound body (`none` =
`ShouldBindJSON` failed); `writeErr` the outcome of
`client.Conn.WriteJSON` (`some e` = error with text `e`). -/
def sendCommand (reg : Registry) (req : Option CommandRequest)
    (writeErr : Option String) : DispatchOutcome :=
  match req with
  | none => ⟨⟨400, .obj [("error", .str "Некорректный запрос")]⟩, reg, []⟩
  | some cmd =>
    match lookupClient cmd.clientID reg with
    | none => ⟨⟨404, .obj [("error", .str "Клиент не найден")]⟩, reg, []⟩
    | some _ =>
      let msg : JVal := .obj [("command", .str cmd.command), ("args", .str cmd.args)]
      match writeErr with
      | some e =>
          ⟨⟨500, .obj [("error", .str ("Ошибка отправки команды: " ++ e))]⟩, reg, [msg]⟩
      | none =>
          ⟨⟨200, .obj [("status", .str "Команда отправлена")]⟩, reg, [msg]⟩

/-- `toggleStream` (main.go:293-323).  The handler sets
`client.IsStreaming = req.Start` before attempting the socket write and does
not roll it back on write failure. -/
def toggleStream (reg : Registry) (req : Option StreamRequest)
    (writeErr : Option String) : DispatchOutcome :=
  match req with
  | none => ⟨⟨400, .obj [("error", .str "Некорректный запрос")]⟩, reg, []⟩
  | some sreq =>
    match lookupClient sreq.clientID reg with
    | none => ⟨⟨404, .obj [("error", .str "Клиент не найден")]⟩, reg, []⟩
    | some _ =>
      let reg' := updateClient sreq.clientID
        (fun c => { c with isStreaming := sreq.start }) reg
      let msg : JVal := .obj [("command", .str "stream"), ("start", .bool sreq.start)]
      match writeErr with
      | some e =>
          ⟨⟨500, .obj [("error", .str ("Ошибка отправки команды: " ++ e))]⟩, reg', [msg]⟩
      | none =>
          ⟨⟨200, .obj [("status", .str "Команда стриминга отправлена"),
                       ("streaming", .bool sreq.start)]⟩, reg', [msg]⟩

/-- The JSON object built for one client in `getClients` (main.go:243-250);
`lastSeen` stands for the RFC3339-formatted timestamp. -/
def clientEntry (c : ClientConnection) : JVal :=
  .obj [("id", .str c.id), ("hostname", .str c.hostname), ("os", .str c.os),
        ("ip", .str c.ip), ("lastSeen", .num c.lastSeen),
        ("isStreaming", .bool c.isStreaming)]

/-- `getClients` (main.go:239-257): 200 with the snapshot of all clients. -/
def getClients (reg : Registry) : HttpResponse :=
  ⟨200, .obj [("clients", .arr (List.map (fun p => clientEntry p.2) reg))]⟩

/-- The routes registered in `main` (main.go:62-73), as (method, path). -/
def routes : List (String × String) :=
  [("GET", "/api/clients"), ("POST", "/api/command"), ("POST", "/api/stream"),
   ("GET", "/connect"), ("GET", "/stream/:client_id"), ("GET", "/admin")]

/-- One iteration's inputs in `handleAdminConnection`'s loop: a read error, or
a frame whose `json.Unmarshal` into `CommandRequest` yields `decoded`
(`none` = error), together with the outcome of whichever `WriteJSON` the
iteration performs. -/
inductive AdminEvent where
  | fail : String → AdminEvent
  | msg : Option CommandRequest → Option String → AdminEvent
deriving Repr

/-- A `WriteJSON` performed by the admin handler, with its destination. -/
inductive AdminWrite where
  | toAdmin : JVal → AdminWrite
  | toClient : String → JVal → AdminWrite
deriving Repr

/-- The `for` loop of `handleAdminConnection` (main.go:167-211): break on read
error; decode failure continues; unknown client id sends a 404
`CommandResponse` back to the admin; otherwise the command is forwarded to
the client.  The registry is only read (`RLock`), never modified. -/
def adminLoop (reg : Registry) : List AdminEvent → List AdminWrite
  | [] => []
  | AdminEvent.fail _ :: _ => []
  | AdminEvent.msg none _ :: rest => adminLoop reg rest
  | AdminEvent.msg (some cmd) _ :: rest =>
    match lookupClient cmd.clientID reg with
    | none =>
        AdminWrite.toAdmin (.obj [("client_id", .str cmd.clientID),
          ("output", .str ""), ("error", .str "Клиент не найден"),
          ("status", .num 404)]) :: adminLoop reg rest
    | some _ =>
        AdminWrite.toClient cmd.clientID
          (.obj [("command", .str cmd.command), ("args", .str cmd.args)])
          :: adminLoop reg rest

/-- Result of `handleAdminConnection`: the (untouched) registry and the
writes performed. -/
structure AdminOutcome where
  registry : Registry
  written : List AdminWrite
deriving Repr

/-- `handleAdminConnection` (main.go:156-212): sends the client list
(`sendClientList`, main.go:215-236), then runs the command loop. -/
def handleAdminConnection (reg : Registry) (events : List AdminEvent) : AdminOutcome :=
  ⟨reg, AdminWrite.toAdmin (.obj [("type", .str "clientList"),
      ("clients", .arr (List.map (fun p => clientEntry p.2) reg))])
    :: adminLoop reg events⟩

/-- `handleClientStream` (main.go:326-341): 404 for unknown id, otherwise a
placeholder 200 text body (modelled as a JSON string). -/
def handleClientStream (reg : Registry) (clientID : String) : HttpResponse :=
  match lookupClient clientID reg with
  | none => ⟨404, .obj [("error", .str "Клиент не найден")]⟩
  | some _ => ⟨200, .str ("Streaming endpoint for client " ++ clientID)⟩

/-! ## Registry lemmas -/

theorem lookup_removeClient (id : String) (reg : Registry) :
    lookupClient id (removeClient id reg) = none := by
  induction reg with
  | nil => rfl
  | cons p rest ih =>
    by_cases hp : p.1 = id
    · simpa [removeClient, hp] using ih
    · simpa [removeClient, lookupClient, hp] using ih

theorem lookup_removeClient_ne (x id : String) (hx : x ≠ id) (reg : Registry) :
    lookupClient x (removeClient id reg) = lookupClient x reg := by
  induction reg with
  | nil => rfl
  | cons p rest ih =>
    have hix : ¬ id = x := fun h => hx h.symm
    by_cases hp : p.1 = id
    · simpa [removeClient, lookupClient, hp, hix] using ih
    · by_cases hq : p.1 = x
      · simp [removeClient, lookupClient, hp, hq, hx]
      · simpa [removeClient, lookupClient, hp, hq] using ih

theorem lookup_insertClient_self (id : String) (c : ClientConnection) (reg : Registry) :
    lookupClient id (insertClient id c reg) = some c := by
  simp [lookupClient, insertClient]

theorem lookup_insertClient_ne (x id : String) (hx : x ≠ id) (c : ClientConnection)
    (reg : Registry) :
    lookupClient x (insertClient id c reg) = lookupClient x reg := by
  have hix : ¬ id = x := fun h => hx h.symm
  simp only [lookupClient, insertClient, hix, if_false]
  exact lookup_removeClient_ne x id hx reg

theorem lookup_updateClient_self (id : String) (f : ClientConnection → ClientConnection)
    (reg : Registry) :
    lookupClient id (updateClient id f reg) = Option.map f (lookupClient id reg) := by
  induction reg with
  | nil => rfl
  | cons p rest ih =>
    by_cases hp : p.1 = id
    · simp [updateClient, lookupClient, hp]
    · simpa [updateClient, lookupClient, hp] using ih

theorem lookup_updateClient_ne (x id : String) (hx : x ≠ id)
    (f : ClientConnection → ClientConnection) (reg : Registry) :
    lookupClient x (updateClient id f reg) = lookupClient x reg := by
  induction reg with
  | nil => rfl
  | cons p rest ih =>
    have hix : ¬ id = x := fun h => hx h.symm
    by_cases hp : p.1 = id
    · simpa [updateClient, lookupClient, hp, hix] using ih
    · by_cases hq : p.1 = x
      · simp [updateClient, lookupClient, hp, hq, hx]
      · simpa [updateClient, lookupClient, hp, hq] using ih

theorem lookup_updateClient_none_iff (x id : String)
    (f : ClientConnection → ClientConnection) (reg : Registry) :
    lookupClient x (updateClient id f reg) = none ↔ lookupClient x reg = none := by
  by_cases hx : x = id
  · subst hx
    rw [lookup_updateClient_self]
    cases lookupClient x reg <;> simp
  · rw [lookup_updateClient_ne x id hx]

theorem readLoop_errored (id : String) (evs : List ReadEvent) :
    ∀ reg : Registry, containsReadError evs = true → (readLoop id reg evs).2 = true := by
  induction evs with
  | nil => intro reg h; simp [containsReadError] at h
  | cons e rest ih =>
    intro reg h
    cases e with
    | fail s => rfl
    | msg dec t =>
      cases dec with
      | none => exact ih reg (by simpa [containsReadError] using h)
      | some j => exact ih _ (by simpa [containsReadError] using h)

/-- When the target id is registered, `toggleStream` updates that entry's
flag to the requested value and attempts the `stream` command write,
whatever the write outcome. -/
theorem toggleStream_found (reg : Registry) (id : String) (b : Bool)
    (w : Option String) (c : ClientConnection) (h : lookupClient id reg = some c) :
    (toggleStream reg (some ⟨id, b⟩) w).registry =
      updateClient id (fun c => { c with isStreaming := b }) reg ∧
    lookupClient id (toggleStream reg (some ⟨id, b⟩) w).registry =
      some { c with isStreaming := b } ∧
    (toggleStream reg (some ⟨id, b⟩) w).written =
      [JVal.obj [("command", JVal.str "stream"), ("start", JVal.bool b)]] := by
  refine ⟨?_, ?_, ?_⟩ <;>
    cases w <;> simp [toggleStream, h, lookup_updateClient_self]

/-- Sample registered client used to instantiate the theorems. -/
def sampleClient : ClientConnection :=
  { id := "h-1", hostname := "h", os := "windows", ip := "10.0.0.1",
    lastSeen := 0, isStreaming := false }

/-- A decoded `system_info` response reporting os "linux". -/
def sysInfoMsg : List (String × JVal) :=
  [("status", JVal.str "system_info"),
   ("data", JVal.obj [("os", JVal.str "linux")])]

/-! ## Claims -/

/-- C1: any read error on a client's socket ends its read loop, closes the
socket, and removes the client's registry entry, after which a lookup of
that id returns `none`; and the read loop's failure path is the sole place
entries are removed: `sendCommand` and `handleAdminConnection` return the
registry unchanged, and `toggleStream` and `handleClientConnection` never
make a present entry absent. -/
theorem readError_cleanup_sole_removal (id : String) (evs : List ReadEvent)
    (reg : Registry) (h : containsReadError evs = true) :
    (handleClientMessages id evs reg).2 = true ∧
    lookupClient id (handleClientMessages id evs reg).1 = none ∧
    (∀ reg2 req w, (sendCommand reg2 req w).registry = reg2) ∧
    (∀ reg2 req w x, lookupClient x (toggleStream reg2 req w).registry = none →
        lookupClient x reg2 = none) ∧
    (∀ reg2 ok info t1 t2 x,
        lookupClient x (handleClientConnection reg2 ok info t1 t2).registry = none →
        lookupClient x reg2 = none) ∧
    (∀ reg2 evs2, (handleAdminConnection reg2 evs2).registry = reg2) := by
  have herr := readLoop_errored id evs reg h
  refine ⟨?_, ?_, ?_, ?_, ?_, ?_⟩
  · simp [handleClientMessages, herr]
  · simp [handleClientMessages, herr, lookup_removeClient]
  · intro reg2 req w
    cases req with
    | none => rfl
    | some cmd =>
      simp only [sendCommand]
      cases lookupClient cmd.clientID reg2 with
      | none => rfl
      | some c => cases w <;> rfl
  · intro reg2 req w x hnone
    cases req with
    | none => exact hnone
    | some sreq =>
      simp only [toggleStream] at hnone
      cases hl : lookupClient sreq.clientID reg2 with
      | none => rw [hl] at hnone; exact hnone
      | some c =>
        rw [hl] at hnone
        cases w with
        | none =>
            simp only at hnone
            exact (lookup_updateClient_none_iff x sreq.clientID _ reg2).mp hnone
        | some e =>
            simp only at hnone
            exact (lookup_updateClient_none_iff x sreq.clientID _ reg2).mp hnone
  · intro reg2 ok info t1 t2 x hnone
    cases ok with
    | false => exact hnone
    | true =>
      cases info with
      | none => exact hnone
      | some i =>
        simp only [handleClientConnection, if_true] at hnone
        by_cases hx : x = i.hostname ++ "-" ++ toString t1
        · rw [hx, lookup_insertClient_self] at hnone
          exact absurd hnone (by simp)
        · rwa [lookup_insertClient_ne x _ hx] at hnone
  · intro reg2 evs2
    rfl

theorem readError_cleanup_sole_removal_holds :
    containsReadError [ReadEvent.fail "EOF"] = true ∧
    (handleClientMessages "h-1" [ReadEvent.fail "EOF"] [("h-1", sampleClient)]).2 = true ∧
    lookupClient "h-1"
      (handleClientMessages "h-1" [ReadEvent.fail "EOF"] [("h-1", sampleClient)]).1 = none :=
  ⟨rfl,
   (readError_cleanup_sole_removal "h-1" [ReadEvent.fail "EOF"]
      [("h-1", sampleClient)] rfl).1,
   (readError_cleanup_sole_removal "h-1" [ReadEvent.fail "EOF"]
      [("h-1", sampleClient)] rfl).2.1⟩

/-- C6: for an id absent from the registry, both dispatch (`sendCommand`)
and the streaming toggle answer 404 and leave the registry exactly as it
was, writing nothing to any agent. -/
theorem unknown_id_notFound (reg : Registry) (cmd : CommandRequest)
    (sreq : StreamRequest) (w w2 : Option String)
    (h1 : lookupClient cmd.clientID reg = none)
    (h2 : lookupClient sreq.clientID reg = none) :
    (sendCommand reg (some cmd) w).response.status = 404 ∧
    (sendCommand reg (some cmd) w).registry = reg ∧
    (sendCommand reg (some cmd) w).written = [] ∧
    (toggleStream reg (some sreq) w2).response.status = 404 ∧
    (toggleStream reg (some sreq) w2).registry = reg ∧
    (toggleStream reg (some sreq) w2).written = [] := by
  refine ⟨?_, ?_, ?_, ?_, ?_, ?_⟩ <;> simp [sendCommand, toggleStream, h1, h2]

theorem unknown_id_notFound_holds :
    lookupClient "unknown-id" ([] : Registry) = none ∧
    (sendCommand [] (some ⟨"unknown-id", "ls", ""⟩) none).response.status = 404 ∧
    (toggleStream [] (some ⟨"unknown-id", true⟩) none).registry = [] :=
  ⟨rfl,
   (unknown_id_notFound [] ⟨"unknown-id", "ls", ""⟩ ⟨"unknown-id", true⟩
      none none rfl rfl).1,
   (unknown_id_notFound [] ⟨"unknown-id", "ls", ""⟩ ⟨"unknown-id", true⟩
      none none rfl rfl).2.2.2.2.1⟩

/-- C7: when the socket write fails, `sendCommand` answers 500 and leaves
the registry unchanged — the target entry stays registered. -/
theorem writeError_keeps_entry (reg : Registry) (cmd : CommandRequest)
    (e : String) (c : ClientConnection)
    (h : lookupClient cmd.clientID reg = some c) :
    (sendCommand reg (some cmd) (some e)).registry = reg ∧
    lookupClient cmd.clientID (sendCommand reg (some cmd) (some e)).registry = some c ∧
    (sendCommand reg (some cmd) (some e)).response.status = 500 := by
  refine ⟨?_, ?_, ?_⟩ <;> simp [sendCommand, h]

theorem writeError_keeps_entry_holds :
    lookupClient "h-1" [("h-1", sampleClient)] = some sampleClient ∧
    (sendCommand [("h-1", sampleClient)] (some ⟨"h-1", "ls", ""⟩)
      (some "broken pipe")).registry = [("h-1", sampleClient)] :=
  ⟨rfl,
   (writeError_keeps_entry [("h-1", sampleClient)] ⟨"h-1", "ls", ""⟩
      "broken pipe" sampleClient rfl).1⟩

/-- C9: `toggleStream` sets the flag to the requested value before the
write; on write failure the caller gets 500 yet the flag keeps the
requested value (no rollback). -/
theorem streamFlag_survives_writeError (reg : Registry) (id : String)
    (b : Bool) (e : String) (c : ClientConnection)
    (h : lookupClient id reg = some c) :
    (toggleStream reg (some ⟨id, b⟩) (some e)).response.status = 500 ∧
    lookupClient id (toggleStream reg (some ⟨id, b⟩) (some e)).registry =
      some { c with isStreaming := b } := by
  refine ⟨?_, ?_⟩ <;> simp [toggleStream, h, lookup_updateClient_self]

theorem streamFlag_survives_writeError_holds :
    lookupClient "h-1" [("h-1", sampleClient)] = some sampleClient ∧
    lookupClient "h-1" (toggleStream [("h-1", sampleClient)]
        (some ⟨"h-1", true⟩) (some "broken pipe")).registry =
      some { sampleClient with isStreaming := true } :=
  ⟨rfl,
   (streamFlag_survives_writeError [("h-1", sampleClient)] "h-1" true
      "broken pipe" sampleClient rfl).2⟩

/-- C10: if the initial info read fails, the handler closes the socket,
registers nothing and writes nothing; a failed upgrade likewise leaves the
registry unchanged — only a completed handshake inserts an entry. -/
theorem handshake_failure_no_registration (reg : Registry) (t1 t2 : Nat) :
    (handleClientConnection reg true none t1 t2).registry = reg ∧
    (handleClientConnection reg true none t1 t2).socketClosed = true ∧
    (handleClientConnection reg true none t1 t2).registeredId = none ∧
    (handleClientConnection reg true none t1 t2).written = [] ∧
    (handleClientConnection reg false none t1 t2).registry = reg :=
  ⟨rfl, rfl, rfl, rfl, rfl⟩

/-- C8: on a registered client, start then stop leaves the streaming flag
false; start twice in a row leaves it true, and the `stream`/start command
is written to the agent on both calls. -/
theorem toggleStream_start_stop_algebra (reg : Registry) (id : String)
    (c : ClientConnection) (w1 w2 w3 w4 : Option String)
    (h : lookupClient id reg = some c) :
    (lookupClient id (toggleStream (toggleStream reg (some ⟨id, true⟩) w1).registry
        (some ⟨id, false⟩) w2).registry).map ClientConnection.isStreaming = some false ∧
    (lookupClient id (toggleStream (toggleStream reg (some ⟨id, true⟩) w3).registry
        (some ⟨id, true⟩) w4).registry).map ClientConnection.isStreaming = some true ∧
    (toggleStream reg (some ⟨id, true⟩) w3).written =
      [JVal.obj [("command", JVal.str "stream"), ("start", JVal.bool true)]] ∧
    (toggleStream (toggleStream reg (some ⟨id, true⟩) w3).registry
        (some ⟨id, true⟩) w4).written =
      [JVal.obj [("command", JVal.str "stream"), ("start", JVal.bool true)]] := by
  obtain ⟨-, hl1, -⟩ := toggleStream_found reg id true w1 c h
  obtain ⟨-, hl2, -⟩ := toggleStream_found _ id false w2 _ hl1
  obtain ⟨-, hl3, hw3⟩ := toggleStream_found reg id true w3 c h
  obtain ⟨-, hl4, hw4⟩ := toggleStream_found _ id true w4 _ hl3
  refine ⟨?_, ?_, hw3, hw4⟩
  · rw [hl2]; rfl
  · rw [hl4]; rfl

theorem toggleStream_start_stop_algebra_holds :
    lookupClient "h-1" [("h-1", sampleClient)] = some sampleClient ∧
    (lookupClient "h-1" (toggleStream
        (toggleStream [("h-1", sampleClient)] (some ⟨"h-1", true⟩) none).registry
        (some ⟨"h-1", false⟩) none).registry).map ClientConnection.isStreaming =
      some false ∧
    (lookupClient "h-1" (toggleStream
        (toggleStream [("h-1", sampleClient)] (some ⟨"h-1", true⟩) none).registry
        (some ⟨"h-1", true⟩) none).registry).map ClientConnection.isStreaming =
      some true :=
  ⟨rfl,
   (toggleStream_start_stop_algebra [("h-1", sampleClient)] "h-1" sampleClient
      none none none none rfl).1,
   (toggleStream_start_stop_algebra [("h-1", sampleClient)] "h-1" sampleClient
      none none none none rfl).2.1⟩

/-- C2 counterexample: at a concrete accepted connection the handler
registers the agent but performs no `WriteJSON` on its socket, so no
bootstrap metadata-request command is dispatched after registration. -/
theorem bootstrap_dispatch_refuted :
    (handleClientConnection [] true (some ⟨"h", "windows", "10.0.0.1"⟩) 1 2).registeredId
      = some "h-1" ∧
    (handleClientConnection [] true (some ⟨"h", "windows", "10.0.0.1"⟩) 1 2).written
      = [] :=
  ⟨rfl, rfl⟩

/-- C2 (amended): the handler first reads the agent's initial metadata
message (hostname/OS/IP); on success it registers a connection carrying that
metadata and dispatches no command to the agent — the metadata is supplied
in the agent's first message, so no bootstrap request exists. -/
theorem register_after_handshake_no_bootstrap (reg : Registry)
    (info : ClientInfo) (t1 t2 : Nat) :
    (handleClientConnection reg true (some info) t1 t2).written = [] ∧
    (handleClientConnection reg true (some info) t1 t2).registeredId =
      some (info.hostname ++ "-" ++ toString t1) ∧
    lookupClient (info.hostname ++ "-" ++ toString t1)
        (handleClientConnection reg true (some info) t1 t2).registry =
      some { id := info.hostname ++ "-" ++ toString t1, hostname := info.hostname,
             os := info.os, ip := info.ip, lastSeen := t2, isStreaming := false } ∧
    (handleClientConnection reg true (some info) t1 t2).socketClosed = false := by
  refine ⟨rfl, rfl, ?_, rfl⟩
  exact lookup_insertClient_self (info.hostname ++ "-" ++ toString t1) _ reg

/-- C3 counterexample: after the read loop handles the agent response
`{"status":"system_info","data":{"os":"linux"}}`, the listing still reports
the handshake os "windows" for that client — the `data` map was not merged. -/
theorem system_info_merge_refuted :
    (lookupClient "h-1"
        (readLoop "h-1" [("h-1", sampleClient)] [ReadEvent.msg (some sysInfoMsg) 5]).1).map
      ClientConnection.os = some "windows" ∧
    getClients (readLoop "h-1" [("h-1", sampleClient)]
        [ReadEvent.msg (some sysInfoMsg) 5]).1 =
      ⟨200, JVal.obj [("clients", JVal.arr [JVal.obj
        [("id", JVal.str "h-1"), ("hostname", JVal.str "h"),
         ("os", JVal.str "windows"), ("ip", JVal.str "10.0.0.1"),
         ("lastSeen", JVal.num 5), ("isStreaming", JVal.bool false)]])]⟩ ∧
    ("windows" : String) ≠ "linux" :=
  ⟨rfl, rfl, by decide⟩

/-- C3 (amended): when the read loop decodes a well-formed message — a
`system_info` response included — it only refreshes the client's
last-activity timestamp; the response `data` is not merged (the connection
has no Info map), so the clients listing keeps the handshake metadata with
only `lastSeen` changed. -/
theorem decoded_message_updates_lastSeen_only (id : String)
    (j : List (String × JVal)) (t : Nat) (reg : Registry) (c : ClientConnection)
    (h : lookupClient id reg = some c) :
    lookupClient id (readLoop id reg [ReadEvent.msg (some j) t]).1 =
      some { c with lastSeen := t } ∧
    (readLoop id reg [ReadEvent.msg (some j) t]).2 = false ∧
    getClients (readLoop id [(id, c)] [ReadEvent.msg (some j) t]).1 =
      ⟨200, JVal.obj [("clients",
        JVal.arr [clientEntry { c with lastSeen := t }])]⟩ := by
  refine ⟨?_, rfl, ?_⟩
  · show lookupClient id
      (updateClient id (fun c => { c with lastSeen := t }) reg) = _
    rw [lookup_updateClient_self, h]
    rfl
  · show getClients
      (updateClient id (fun c => { c with lastSeen := t }) [(id, c)]) = _
    simp [updateClient, getClients, clientEntry]

theorem decoded_message_updates_lastSeen_only_holds :
    lookupClient "h-1" [("h-1", sampleClient)] = some sampleClient ∧
    lookupClient "h-1" (readLoop "h-1" [("h-1", sampleClient)]
        [ReadEvent.msg (some sysInfoMsg) 5]).1 =
      some { sampleClient with lastSeen := 5 } :=
  ⟨rfl,
   (decoded_message_updates_lastSeen_only "h-1" sysInfoMsg 5
      [("h-1", sampleClient)] sampleClient rfl).1⟩

/-- C4 counterexample: a successful dispatch answers 200, but its body is
`{"status":"Команда отправлена"}`, not `{"status":"success"}`. -/
theorem success_body_refuted :
    (sendCommand [("h-1", sampleClient)] (some ⟨"h-1", "ls", ""⟩) none).response.status
      = 200 ∧
    (sendCommand [("h-1", sampleClient)] (some ⟨"h-1", "ls", ""⟩) none).response.body
      = JVal.obj [("status", JVal.str "Команда отправлена")] ∧
    (sendCommand [("h-1", sampleClient)] (some ⟨"h-1", "ls", ""⟩) none).response.body
      ≠ JVal.obj [("status", JVal.str "success")] := by
  refine ⟨rfl, rfl, ?_⟩
  intro hcontra
  rw [show (sendCommand [("h-1", sampleClient)] (some ⟨"h-1", "ls", ""⟩)
        none).response.body
      = JVal.obj [("status", JVal.str "Команда отправлена")] from rfl] at hcontra
  simp at hcontra

/-- C4 (amended): for a well-formed `POST /api/command` body the server
answers 404 when the client id is unknown, 500 with error text on socket
write failure, and 200 on success — with success body
`{"status":"Команда отправлена"}` ("command sent") rather than
`{"status":"success"}`. -/
theorem sendCommand_http_statuses (reg : Registry) (cmd : CommandRequest)
    (e : String) (c : ClientConnection)
    (h : lookupClient cmd.clientID reg = some c) :
    (sendCommand reg (some cmd) none).response.status = 200 ∧
    (sendCommand reg (some cmd) none).response.body =
      JVal.obj [("status", JVal.str "Команда отправлена")] ∧
    (sendCommand reg (some cmd) none).written =
      [JVal.obj [("command", JVal.str cmd.command), ("args", JVal.str cmd.args)]] ∧
    (sendCommand reg (some cmd) (some e)).response.status = 500 ∧
    (sendCommand reg (some cmd) (some e)).response.body =
      JVal.obj [("error", JVal.str ("Ошибка отправки команды: " ++ e))] ∧
    (∀ reg2 cmd2, lookupClient (CommandRequest.clientID cmd2) reg2 = none →
      (sendCommand reg2 (some cmd2) none).response.status = 404) := by
  refine ⟨?_, ?_, ?_, ?_, ?_, ?_⟩
  · simp [sendCommand, h]
  · simp [sendCommand, h]
  · simp [sendCommand, h]
  · simp [sendCommand, h]
  · simp [sendCommand, h]
  · intro reg2 cmd2 h2
    simp [sendCommand, h2]

theorem sendCommand_http_statuses_holds :
    lookupClient "h-1" [("h-1", sampleClient)] = some sampleClient ∧
    (sendCommand [("h-1", sampleClient)] (some ⟨"h-1", "ls", ""⟩) none).response.status
      = 200 :=
  ⟨rfl,
   (sendCommand_http_statuses [("h-1", sampleClient)] ⟨"h-1", "ls", ""⟩
      "broken pipe" sampleClient rfl).1⟩

/-- C5: `main` registers no `GET /api/client/{id}` route (although the
repository README documents one): no registered path lies under
`/api/client/`, and the `gin`-style single-client route is absent. -/
theorem apiClient_route_missing :
    routes.all (fun r => !(List.isPrefixOf "/api/client/".data r.2.data)) = true ∧
    routes.contains ("GET", "/api/client/:client_id") = false :=
  ⟨rfl, rfl⟩
